import Mathlib

/-! GNEStop (netedit/demandelements/GNEStop.cpp)

A shallow embedding of the attribute, geometry-moving and geometry-update
methods of `GNEStop`.

Conventions of the embedding.

* `double` values live in an arbitrary linearly ordered field `K`
  (exact arithmetic); concrete evaluations use `ℚ`.
* `parametersSet` is a C++ `int` used as a bit set. It is held as the
  natural number of its 32-bit pattern; `~x` is `4294967295 - x`.
* A C++ method that may throw returns its outcome together with the
  object state reached when it returns or throws.
* Everything the methods call that is defined in another file of the editor
  (string conversion, lookups in the net, shape geometry, the values of the
  flag constants) is a field of `Env`.
* Calls made on the undo list and on the grid of the net are recorded, in
  order, in a list.
* `myViewNet` is a valid pointer: every method but the two selection methods
  dereferences it unchecked.
-/

namespace GNEStop

/-- Attribute keys. The enum `SumoXMLAttr` is declared in another file; the
keys this file names are constructors of their own, every other value of the
enum is `other n`. -/
inductive SumoXMLAttr where
  | SUMO_ATTR_ID
  | SUMO_ATTR_DURATION
  | SUMO_ATTR_UNTIL
  | SUMO_ATTR_INDEX
  | SUMO_ATTR_TRIGGERED
  | SUMO_ATTR_CONTAINER_TRIGGERED
  | SUMO_ATTR_EXPECTED
  | SUMO_ATTR_EXPECTED_CONTAINERS
  | SUMO_ATTR_PARKING
  | SUMO_ATTR_ACTTYPE
  | SUMO_ATTR_TRIP_ID
  | SUMO_ATTR_BUS_STOP
  | SUMO_ATTR_CONTAINER_STOP
  | SUMO_ATTR_CHARGING_STATION
  | SUMO_ATTR_PARKING_AREA
  | SUMO_ATTR_LANE
  | SUMO_ATTR_STARTPOS
  | SUMO_ATTR_ENDPOS
  | SUMO_ATTR_FRIENDLY_POS
  | GNE_ATTR_SELECTED
  | GNE_ATTR_GENERIC
  | SUMO_ATTR_END
  | SUMO_ATTR_NUMBER
  | SUMO_ATTR_VEHSPERHOUR
  | SUMO_ATTR_PERIOD
  | SUMO_ATTR_PROB
  | other (code : Nat)
  deriving DecidableEq, Repr

/-- Tags of the stopping places looked up by `isValid`. -/
inductive SumoXMLTag where
  | SUMO_TAG_BUS_STOP
  | SUMO_TAG_CONTAINER_STOP
  | SUMO_TAG_CHARGING_STATION
  | SUMO_TAG_PARKING_AREA
  deriving DecidableEq, Repr

/-- A point of the view (class `Position`). -/
structure Position (K : Type) where
  x : K
  y : K
  z : K

/-- The method `Position::add`: componentwise sum. -/
def Position.add {K : Type} [Add K] (p q : Position K) : Position K :=
  ⟨p.x + q.x, p.y + q.y, p.z + q.z⟩

/-- What this file reads of a `GNELane`: its id, its shape, the final length
of its parent edge and its length geometry factor. -/
structure Lane (K : Type) where
  id : String
  shape : List (Position K)
  finalLength : K
  lengthGeometryFactor : K

/-- The geometry containers of an element: `shape`, `shapeRotations`,
`shapeLengths`. -/
structure Geometry (K : Type) where
  shape : List (Position K)
  shapeRotations : List K
  shapeLengths : List K

/-- The method `clearGeometry`: all three containers are emptied. -/
def Geometry.clearGeometry {K : Type} (_g : Geometry K) : Geometry K :=
  ⟨[], [], []⟩

/-- What this file reads of a `GNEAdditional` parent: its id and its
geometry. -/
structure Additional (K : Type) where
  id : String
  geometry : Geometry K

/-- The fields of `myMove` read while the stop is dragged. -/
structure Move (K : Type) where
  originalViewPosition : Position K
  firstOriginalLanePosition : String
  secondOriginalPosition : String

/-- The two queries made on `myTagProperty`. -/
structure TagProperty where
  hasAttribute : SumoXMLAttr → Bool
  requiereUpdateGeometry : SumoXMLAttr → Bool

/-- State of a `GNEStop`: the fields of `SUMOVehicleParameter::Stop`, of
`GNEStop` and of its base classes that the modelled methods read or write. -/
structure Stop (K : Type) where
  startPos : K
  endPos : K
  duration : Int
  «until» : Int
  index : Int
  triggered : Bool
  containerTriggered : Bool
  awaitedPersons : List String
  awaitedContainers : List String
  parking : Bool
  tripId : String
  parametersSet : Nat
  myFriendlyPosition : Bool
  demandElementID : String
  tagStr : String
  myTagProperty : TagProperty
  myLaneParents : List (Lane K)
  myAdditionalParents : List (Additional K)
  myGeometry : Geometry K
  myMove : Move K
  mySelected : Bool
  genericParameters : String

/-- Exceptions and faults. `InvalidArgument` is the exception this file throws
for an unknown key; `thrown` is any exception raised inside a helper defined
in another file (a failed `parse`, a failed lookup); `emptyFront` is a call of
`front()` on an empty parent list, which C++ leaves undefined. -/
inductive Err where
  | InvalidArgument (msg : String)
  | thrown
  | emptyFront
  deriving DecidableEq, Repr

/-- One call made on the undo list. `p_add` carries the arguments of the
`GNEChange_Attribute` that is added: key, new value, and the original value
when the caller passes one (`customOrigValue = true`). -/
inductive UndoOp where
  | p_begin (description : String)
  | p_add (key : SumoXMLAttr) (value : String) (origValue : Option String)
  | p_end
  deriving DecidableEq, Repr

/-- One call made on the grid of the net for this stop. -/
inductive GridOp where
  | removeGLObjectFromGrid
  | addGLObjectIntoGrid
  deriving DecidableEq, Repr

/-- Helpers and constants defined in other files of the editor. A `parse`
that throws returns `none`; so does a state-changing helper that throws. -/
structure Env (K : Type) where
  STOP_START_SET : Nat
  STOP_END_SET : Nat
  toStringDouble : K → String
  toStringTime : Int → String
  toStringInt : Int → String
  toStringBool : Bool → String
  toStringSet : List String → String
  toStringAttr : SumoXMLAttr → String
  parseDouble : String → Option K
  parseTime : String → Option Int
  parseInt : String → Option Int
  parseBool : String → Option Bool
  parseSet : String → Option (List String)
  canParseVector : String → Bool
  isValidDemandElementID : String → Bool
  isValidAttribute : String → Bool
  isGenericParametersValid : String → Bool
  retrieveAdditional : SumoXMLTag → String → Bool
  retrieveLane : String → Bool
  checkStoppinPlacePosition : String → String → K → Bool → Bool
  changeDemandElementID : Stop K → String → Option (Stop K)
  changeAdditionalParent : Stop K → String → Nat → Option (Stop K)
  changeLaneParents : Stop K → String → Option (Stop K)
  setGenericParametersStr : Stop K → String → Option (Stop K)
  snapToActiveGrid : Position K → Position K
  nearest_offset_to_point2D : List (Position K) → Position K → K
  getSubpart : List (Position K) → K → K → List (Position K)
  calculateRotations : List (Position K) → List K
  calculateLengths : List (Position K) → List K
  changeFlagDefault : Bool

/-- The template `canParse<T>`: true exactly when `parse<T>` returns without
throwing. -/
def canParse {α : Type} (parse : String → Option α) (value : String) : Bool :=
  (parse value).isSome

/-- The complement `~x` of a 32-bit pattern. -/
def complement32 (x : Nat) : Nat :=
  4294967295 - x

/-- The message of the exception thrown for an unknown key. -/
def noAttributeMessage {K : Type} (env : Env K) (s : Stop K) (key : SumoXMLAttr) : String :=
  s.tagStr ++ " doesn't have an attribute of type '" ++ env.toStringAttr key ++ "'"

/-- The method `GNEStop::getAttribute` (a `const` method: the result only). -/
def getAttribute {K : Type} (env : Env K) (s : Stop K) (key : SumoXMLAttr) :
    Except Err String :=
  match key with
  | .SUMO_ATTR_ID => .ok s.demandElementID
  | .SUMO_ATTR_DURATION => .ok (env.toStringTime s.duration)
  | .SUMO_ATTR_UNTIL => .ok (env.toStringTime s.until)
  | .SUMO_ATTR_INDEX => .ok (env.toStringInt s.index)
  | .SUMO_ATTR_TRIGGERED => .ok (env.toStringBool s.triggered)
  | .SUMO_ATTR_CONTAINER_TRIGGERED => .ok (env.toStringBool s.containerTriggered)
  | .SUMO_ATTR_EXPECTED => .ok (env.toStringSet s.awaitedPersons)
  | .SUMO_ATTR_EXPECTED_CONTAINERS => .ok (env.toStringSet s.awaitedContainers)
  | .SUMO_ATTR_PARKING => .ok (env.toStringBool s.parking)
  | .SUMO_ATTR_ACTTYPE => .ok ""
  | .SUMO_ATTR_TRIP_ID => .ok s.tripId
  | .SUMO_ATTR_BUS_STOP
  | .SUMO_ATTR_CONTAINER_STOP
  | .SUMO_ATTR_CHARGING_STATION
  | .SUMO_ATTR_PARKING_AREA =>
    match s.myAdditionalParents with
    | [] => .error .emptyFront
    | a :: _ => .ok a.id
  | .SUMO_ATTR_LANE =>
    match s.myLaneParents with
    | [] => .error .emptyFront
    | lane :: _ => .ok lane.id
  | .SUMO_ATTR_STARTPOS =>
    if s.parametersSet &&& env.STOP_START_SET ≠ 0 then
      .ok (env.toStringDouble s.startPos)
    else
      .ok ""
  | .SUMO_ATTR_ENDPOS =>
    if s.parametersSet &&& env.STOP_END_SET ≠ 0 then
      .ok (env.toStringDouble s.endPos)
    else
      .ok ""
  | .SUMO_ATTR_FRIENDLY_POS => .ok (env.toStringBool s.myFriendlyPosition)
  | .GNE_ATTR_SELECTED => .ok (env.toStringBool s.mySelected)
  | .GNE_ATTR_GENERIC => .ok s.genericParameters
  | _ => .error (.InvalidArgument (noAttributeMessage env s key))

/-- The method `GNEStop::setAttribute(key, value, undoList)`. -/
def setAttributeWithUndoList {K : Type} (env : Env K) (s : Stop K) (key : SumoXMLAttr)
    (value : String) (undoList : List UndoOp) : Except Err Unit × Stop K × List UndoOp :=
  match getAttribute env s key with
  | .error e => (.error e, s, undoList)
  | .ok current =>
    if value = current then
      (.ok (), s, undoList)
    else
      match key with
      | .SUMO_ATTR_ID
      | .SUMO_ATTR_DURATION
      | .SUMO_ATTR_UNTIL
      | .SUMO_ATTR_INDEX
      | .SUMO_ATTR_TRIGGERED
      | .SUMO_ATTR_CONTAINER_TRIGGERED
      | .SUMO_ATTR_EXPECTED
      | .SUMO_ATTR_EXPECTED_CONTAINERS
      | .SUMO_ATTR_PARKING
      | .SUMO_ATTR_ACTTYPE
      | .SUMO_ATTR_TRIP_ID
      | .SUMO_ATTR_BUS_STOP
      | .SUMO_ATTR_CONTAINER_STOP
      | .SUMO_ATTR_CHARGING_STATION
      | .SUMO_ATTR_PARKING_AREA
      | .SUMO_ATTR_LANE
      | .SUMO_ATTR_STARTPOS
      | .SUMO_ATTR_ENDPOS
      | .SUMO_ATTR_FRIENDLY_POS
      | .GNE_ATTR_GENERIC
      | .GNE_ATTR_SELECTED =>
        (.ok (), s, undoList ++ [.p_add key value none])
      | _ => (.error (.InvalidArgument (noAttributeMessage env s key)), s, undoList)

/-- The method `GNEStop::isValid`. It is not `const`, so the state is returned
next to the result. -/
def isValid {K : Type} (env : Env K) (s : Stop K) (key : SumoXMLAttr) (value : String) :
    Except Err Bool × Stop K :=
  match key with
  | .SUMO_ATTR_ID => (.ok (env.isValidDemandElementID value), s)
  | .SUMO_ATTR_DURATION => (.ok (canParse env.parseTime value), s)
  | .SUMO_ATTR_UNTIL => (.ok (canParse env.parseTime value), s)
  | .SUMO_ATTR_INDEX => (.ok (canParse env.parseInt value), s)
  | .SUMO_ATTR_TRIGGERED => (.ok (canParse env.parseBool value), s)
  | .SUMO_ATTR_CONTAINER_TRIGGERED => (.ok (canParse env.parseBool value), s)
  | .SUMO_ATTR_EXPECTED
  | .SUMO_ATTR_EXPECTED_CONTAINERS =>
    if value = "" then (.ok true, s) else (.ok (env.canParseVector value), s)
  | .SUMO_ATTR_PARKING => (.ok (canParse env.parseBool value), s)
  | .SUMO_ATTR_ACTTYPE => (.ok false, s)
  | .SUMO_ATTR_TRIP_ID => (.ok (env.isValidAttribute value), s)
  | .SUMO_ATTR_BUS_STOP => (.ok (env.retrieveAdditional .SUMO_TAG_BUS_STOP value), s)
  | .SUMO_ATTR_CONTAINER_STOP =>
    (.ok (env.retrieveAdditional .SUMO_TAG_CONTAINER_STOP value), s)
  | .SUMO_ATTR_CHARGING_STATION =>
    (.ok (env.retrieveAdditional .SUMO_TAG_CHARGING_STATION value), s)
  | .SUMO_ATTR_PARKING_AREA => (.ok (env.retrieveAdditional .SUMO_TAG_PARKING_AREA value), s)
  | .SUMO_ATTR_LANE => if env.retrieveLane value then (.ok true, s) else (.ok false, s)
  | .SUMO_ATTR_STARTPOS =>
    if value = "" then
      (.ok true, s)
    else if canParse env.parseDouble value then
      match s.myLaneParents with
      | [] => (.error .emptyFront, s)
      | lane :: _ =>
        (.ok (env.checkStoppinPlacePosition value (env.toStringDouble s.endPos)
          lane.finalLength s.myFriendlyPosition), s)
    else
      (.ok false, s)
  | .SUMO_ATTR_ENDPOS =>
    if value = "" then
      (.ok true, s)
    else if canParse env.parseDouble value then
      match s.myLaneParents with
      | [] => (.error .emptyFront, s)
      | lane :: _ =>
        (.ok (env.checkStoppinPlacePosition (env.toStringDouble s.startPos) value
          lane.finalLength s.myFriendlyPosition), s)
    else
      (.ok false, s)
  | .SUMO_ATTR_FRIENDLY_POS => (.ok (canParse env.parseBool value), s)
  | .GNE_ATTR_SELECTED => (.ok (canParse env.parseBool value), s)
  | .GNE_ATTR_GENERIC => (.ok (env.isGenericParametersValid value), s)
  | _ => (.error (.InvalidArgument (noAttributeMessage env s key)), s)

/-- The method `GNEStop::getStartGeometryPositionOverLane`. The lane is
`myLaneParents.front()`, handed over by the caller, which has checked that the
list is not empty. -/
def getStartGeometryPositionOverLane {K : Type} [LinearOrderedField K] (env : Env K)
    (s : Stop K) (front : Lane K) : K :=
  if s.parametersSet &&& env.STOP_START_SET ≠ 0 then
    let fixedPos := s.endPos
    let len := front.finalLength
    let fixedPos := if fixedPos < 0 then fixedPos + len else fixedPos
    fixedPos * front.lengthGeometryFactor
  else
    0

/-- The method `GNEStop::getEndGeometryPositionOverLane`, with the front lane
handed over as in `getStartGeometryPositionOverLane`. -/
def getEndGeometryPositionOverLane {K : Type} [LinearOrderedField K] (env : Env K)
    (s : Stop K) (front : Lane K) : K :=
  if s.parametersSet &&& env.STOP_END_SET ≠ 0 then
    let fixedPos := s.startPos
    let len := front.finalLength
    let fixedPos := if fixedPos < 0 then fixedPos + len else fixedPos
    fixedPos * front.lengthGeometryFactor
  else
    0

/-- The method `calculateShapeRotationsAndLengths` of the geometry: one rotation
and one length per segment of `shape` are pushed onto the two containers; the
shape is not written. -/
def Geometry.calculateShapeRotationsAndLengths {K : Type} (env : Env K) (g : Geometry K) :
    Geometry K :=
  { g with
    shapeRotations := g.shapeRotations ++ env.calculateRotations g.shape
    shapeLengths := g.shapeLengths ++ env.calculateLengths g.shape }

/-- The method `GNEStop::updateGeometry`. -/
def updateGeometry {K : Type} [LinearOrderedField K] (env : Env K) (s : Stop K)
    (updateGrid : Bool) (grid : List GridOp) : Stop K × List GridOp :=
  let grid1 := if updateGrid then grid ++ [GridOp.removeGLObjectFromGrid] else grid
  let s1 := { s with myGeometry := s.myGeometry.clearGeometry }
  let s2 :=
    match s1.myLaneParents with
    | lane :: _ =>
      let shape := env.getSubpart lane.shape (getStartGeometryPositionOverLane env s1 lane)
        (getEndGeometryPositionOverLane env s1 lane)
      { s1 with
        myGeometry := ({ s1.myGeometry with shape := shape }).calculateShapeRotationsAndLengths env }
    | [] =>
      match s1.myAdditionalParents with
      | a :: _ =>
        { s1 with
          myGeometry :=
            { shape := a.geometry.shape
              shapeLengths := a.geometry.shapeLengths
              shapeRotations := a.geometry.shapeRotations } }
      | [] => s1
  let grid2 := if updateGrid then grid1 ++ [GridOp.addGLObjectIntoGrid] else grid1
  (s2, grid2)

/-- The expression `parametersSet |= flag`: the field is assigned the bitwise
or, and the expression has the assigned value. -/
def orAssign (parametersSet flag : Nat) : Nat :=
  parametersSet ||| flag

/-- The local variable `offsetLane` of `GNEStop::moveGeometry`: the new view
position is the original one plus the offset, snapped to the active grid; the
result is the difference of the nearest lane offsets of the new and of the
original view position. -/
def offsetLane {K : Type} [LinearOrderedField K] (env : Env K) (s : Stop K) (lane : Lane K)
    (offset : Position K) : K :=
  let newPosition := s.myMove.originalViewPosition
  let newPosition := newPosition.add offset
  let newPosition := env.snapToActiveGrid newPosition
  env.nearest_offset_to_point2D lane.shape newPosition
    - env.nearest_offset_to_point2D lane.shape s.myMove.originalViewPosition

/-- The method `GNEStop::moveGeometry`. Each condition written with `|=` is an
assignment to `parametersSet` whose value is then tested against zero; `||` and
`&&` evaluate their right operand only when the left one was zero, respectively
non-zero. -/
def moveGeometry {K : Type} [LinearOrderedField K] (env : Env K) (s : Stop K)
    (grid : List GridOp) (offset : Position K) : Except Err Unit × Stop K × List GridOp :=
  match s.myLaneParents with
  | [] => (.ok (), s, grid)
  | lane :: _ =>
    let ps1 := orAssign s.parametersSet env.STOP_START_SET
    let ps2 := if ps1 ≠ 0 then ps1 else orAssign ps1 env.STOP_END_SET
    if ps2 ≠ 0 then
      let offsetLane := offsetLane env s lane offset
      let ps3 := orAssign ps2 env.STOP_START_SET
      let ps4 := if ps3 ≠ 0 then orAssign ps3 env.STOP_END_SET else ps3
      if ps3 ≠ 0 ∧ ps4 ≠ 0 then
        match env.parseDouble s.myMove.secondOriginalPosition,
          env.parseDouble s.myMove.firstOriginalLanePosition with
        | some second, some first =>
          let stoppingPlaceLenght := |second - first|
          let laneLengt := lane.finalLength * lane.lengthGeometryFactor
          let s5 : Stop K :=
            if first + offsetLane < 0 then
              { s with parametersSet := ps4, startPos := 0, endPos := stoppingPlaceLenght }
            else if second + offsetLane > laneLengt then
              { s with
                parametersSet := ps4
                startPos := laneLengt - stoppingPlaceLenght
                endPos := laneLengt }
            else
              { s with
                parametersSet := ps4
                startPos := first + offsetLane
                endPos := second + offsetLane }
          let r := updateGeometry env s5 false grid
          (.ok (), r.1, r.2)
        | _, _ => (.error .thrown, { s with parametersSet := ps4 }, grid)
      else
        let ps5 := orAssign ps4 env.STOP_START_SET
        let moved1 : Except Err (Stop K) :=
          if ps5 ≠ 0 then
            match env.parseDouble s.myMove.firstOriginalLanePosition with
            | some first => .ok { s with parametersSet := ps5, startPos := first + offsetLane }
            | none => .error .thrown
          else
            .ok { s with parametersSet := ps5 }
        match moved1 with
        | .error e => (.error e, { s with parametersSet := ps5 }, grid)
        | .ok s6 =>
          let ps7 := orAssign s6.parametersSet env.STOP_END_SET
          let moved2 : Except Err (Stop K) :=
            if ps7 ≠ 0 then
              match env.parseDouble s.myMove.secondOriginalPosition with
              | some second => .ok { s6 with parametersSet := ps7, endPos := second + offsetLane }
              | none => .error .thrown
            else
              .ok { s6 with parametersSet := ps7 }
          match moved2 with
          | .error e => (.error e, { s6 with parametersSet := ps7 }, grid)
          | .ok s8 =>
            let r := updateGeometry env s8 false grid
            (.ok (), r.1, r.2)
    else
      (.ok (), { s with parametersSet := ps2 }, grid)

/-- The method `GNEStop::commitGeometryMoving`, with the conditions written with
`|=` read as in `moveGeometry`. -/
def commitGeometryMoving {K : Type} (env : Env K) (s : Stop K) (undoList : List UndoOp) :
    Stop K × List UndoOp :=
  if 0 < s.myLaneParents.length then
    let ps1 := orAssign s.parametersSet env.STOP_START_SET
    let ps2 := if ps1 ≠ 0 then ps1 else orAssign ps1 env.STOP_END_SET
    if ps2 ≠ 0 then
      let u1 := undoList ++ [UndoOp.p_begin ("position of " ++ s.tagStr)]
      let ps3 := orAssign ps2 env.STOP_START_SET
      let u2 :=
        if ps3 ≠ 0 then
          u1 ++ [UndoOp.p_add .SUMO_ATTR_STARTPOS (env.toStringDouble s.startPos)
            (some s.myMove.firstOriginalLanePosition)]
        else u1
      let ps4 := orAssign ps3 env.STOP_END_SET
      let u3 :=
        if ps4 ≠ 0 then
          u2 ++ [UndoOp.p_add .SUMO_ATTR_ENDPOS (env.toStringDouble s.endPos)
            (some s.myMove.secondOriginalPosition)]
        else u2
      ({ s with parametersSet := ps4 }, u3 ++ [UndoOp.p_end])
    else
      ({ s with parametersSet := ps2 }, undoList)
  else
    (s, undoList)

/-- The method `GNEStop::selectAttributeCarrier`, for a stop whose `myViewNet` is
set. The selection registry and the selector frame are outside the stop. -/
def selectAttributeCarrier {K : Type} (s : Stop K) (changeFlag : Bool) : Stop K :=
  if changeFlag then { s with mySelected := true } else s

/-- The method `GNEStop::unselectAttributeCarrier`, for a stop whose `myViewNet`
is set. -/
def unselectAttributeCarrier {K : Type} (s : Stop K) (changeFlag : Bool) : Stop K :=
  if changeFlag then { s with mySelected := false } else s

/-- The `switch` of the private `GNEStop::setAttribute(key, value)`: the stop
after the selected case, or the exception that case throws. -/
def setAttributeSwitch {K : Type} (env : Env K) (s : Stop K) (key : SumoXMLAttr)
    (value : String) : Except Err (Stop K) :=
  match key with
  | .SUMO_ATTR_ID =>
    match env.changeDemandElementID s value with
    | some s1 => .ok s1
    | none => .error .thrown
  | .SUMO_ATTR_DURATION =>
    match env.parseTime value with
    | some d => .ok { s with duration := d }
    | none => .error .thrown
  | .SUMO_ATTR_UNTIL =>
    match env.parseTime value with
    | some u => .ok { s with «until» := u }
    | none => .error .thrown
  | .SUMO_ATTR_INDEX =>
    match env.parseInt value with
    | some i => .ok { s with index := i }
    | none => .error .thrown
  | .SUMO_ATTR_TRIGGERED =>
    match env.parseBool value with
    | some b => .ok { s with triggered := b }
    | none => .error .thrown
  | .SUMO_ATTR_CONTAINER_TRIGGERED =>
    match env.parseBool value with
    | some b => .ok { s with containerTriggered := b }
    | none => .error .thrown
  | .SUMO_ATTR_EXPECTED =>
    match env.parseSet value with
    | some l => .ok { s with awaitedPersons := l }
    | none => .error .thrown
  | .SUMO_ATTR_EXPECTED_CONTAINERS =>
    match env.parseSet value with
    | some l => .ok { s with awaitedContainers := l }
    | none => .error .thrown
  | .SUMO_ATTR_PARKING =>
    match env.parseBool value with
    | some b => .ok { s with parking := b }
    | none => .error .thrown
  | .SUMO_ATTR_ACTTYPE => .ok s
  | .SUMO_ATTR_TRIP_ID => .ok { s with tripId := value }
  | .SUMO_ATTR_BUS_STOP
  | .SUMO_ATTR_CONTAINER_STOP
  | .SUMO_ATTR_CHARGING_STATION
  | .SUMO_ATTR_PARKING_AREA =>
    match env.changeAdditionalParent s value 0 with
    | some s1 => .ok s1
    | none => .error .thrown
  | .SUMO_ATTR_LANE =>
    match env.changeLaneParents s value with
    | some s1 => .ok s1
    | none => .error .thrown
  | .SUMO_ATTR_STARTPOS =>
    if value = "" then
      .ok { s with parametersSet := s.parametersSet &&& complement32 env.STOP_START_SET }
    else
      match env.parseDouble value with
      | some d =>
        .ok { s with startPos := d, parametersSet := s.parametersSet ||| env.STOP_START_SET }
      | none => .error .thrown
  | .SUMO_ATTR_ENDPOS =>
    if value = "" then
      .ok { s with parametersSet := s.parametersSet &&& complement32 env.STOP_END_SET }
    else
      match env.parseDouble value with
      | some d =>
        .ok { s with endPos := d, parametersSet := s.parametersSet ||| env.STOP_END_SET }
      | none => .error .thrown
  | .SUMO_ATTR_FRIENDLY_POS =>
    match env.parseBool value with
    | some b => .ok { s with myFriendlyPosition := b }
    | none => .error .thrown
  | .GNE_ATTR_SELECTED =>
    match env.parseBool value with
    | some true => .ok (selectAttributeCarrier s env.changeFlagDefault)
    | some false => .ok (unselectAttributeCarrier s env.changeFlagDefault)
    | none => .error .thrown
  | .GNE_ATTR_GENERIC =>
    match env.setGenericParametersStr s value with
    | some s1 => .ok s1
    | none => .error .thrown
  | _ => .error (.InvalidArgument (noAttributeMessage env s key))

/-- The private method `GNEStop::setAttribute(key, value)`: the `switch`, then
the geometry update when the tag property asks for it. A case that throws
leaves the stop as it was. -/
def setAttribute {K : Type} [LinearOrderedField K] (env : Env K) (s : Stop K)
    (grid : List GridOp) (key : SumoXMLAttr) (value : String) :
    Except Err Unit × Stop K × List GridOp :=
  match setAttributeSwitch env s key value with
  | .error e => (.error e, s, grid)
  | .ok s1 =>
    if s1.myTagProperty.hasAttribute key && s1.myTagProperty.requiereUpdateGeometry key then
      let r := updateGeometry env s1 true grid
      (.ok (), r.1, r.2)
    else
      (.ok (), s1, grid)

/-- The attribute keys of a stop as the specification lists them. -/
def stopAttributes : List SumoXMLAttr :=
  [ .SUMO_ATTR_ID, .SUMO_ATTR_DURATION, .SUMO_ATTR_UNTIL, .SUMO_ATTR_INDEX,
    .SUMO_ATTR_TRIGGERED, .SUMO_ATTR_CONTAINER_TRIGGERED, .SUMO_ATTR_EXPECTED,
    .SUMO_ATTR_EXPECTED_CONTAINERS, .SUMO_ATTR_PARKING, .SUMO_ATTR_ACTTYPE,
    .SUMO_ATTR_TRIP_ID, .SUMO_ATTR_BUS_STOP, .SUMO_ATTR_CONTAINER_STOP,
    .SUMO_ATTR_CHARGING_STATION, .SUMO_ATTR_PARKING_AREA, .SUMO_ATTR_LANE,
    .SUMO_ATTR_STARTPOS, .SUMO_ATTR_ENDPOS, .SUMO_ATTR_FRIENDLY_POS,
    .GNE_ATTR_SELECTED, .GNE_ATTR_GENERIC ]

/-- True when an outcome is the `InvalidArgument` exception. -/
def isInvalidArgument {α : Type} : Except Err α → Bool
  | .error (.InvalidArgument _) => true
  | _ => false

/-! ## A concrete environment and concrete stops

Used to run the methods on explicit inputs. The lane is the straight segment
from `(0, 0)` to `(100, 0)`, so the nearest offset of a point is its `x`. -/

/-- A small environment over `ℚ`: the flags are bits 0 and 1, the view has no
active grid, numbers are converted through a short table. -/
def sampleEnv : Env ℚ where
  STOP_START_SET := 1
  STOP_END_SET := 2
  toStringDouble := fun q =>
    if q = 0 then "0" else if q = 5 then "5" else if q = 10 then "10"
    else if q = -5 then "-5" else "?"
  toStringTime := fun t => toString t
  toStringInt := fun i => toString i
  toStringBool := fun b => if b then "true" else "false"
  toStringSet := fun l => " ".intercalate l
  toStringAttr := fun _ => "attr"
  parseDouble := fun v =>
    if v = "0" then some 0 else if v = "5" then some 5 else if v = "10" then some 10
    else if v = "-5" then some (-5) else none
  parseTime := fun v => if v = "0" then some 0 else if v = "60" then some 60 else none
  parseInt := fun v => if v = "0" then some 0 else if v = "1" then some 1 else none
  parseBool := fun v => if v = "true" then some true else if v = "false" then some false else none
  parseSet := fun v => some [v]
  canParseVector := fun _ => true
  isValidDemandElementID := fun v => decide (v ≠ "")
  isValidAttribute := fun _ => true
  isGenericParametersValid := fun _ => true
  retrieveAdditional := fun _ _ => false
  retrieveLane := fun v => decide (v = "lane_0")
  checkStoppinPlacePosition := fun _ _ _ friendlyPos => friendlyPos
  changeDemandElementID := fun s v => some { s with demandElementID := v }
  changeAdditionalParent := fun _ _ _ => none
  changeLaneParents := fun _ _ => none
  setGenericParametersStr := fun s v => some { s with genericParameters := v }
  snapToActiveGrid := fun p => p
  nearest_offset_to_point2D := fun _ p => p.x
  getSubpart := fun shape _ _ => shape
  calculateRotations := fun _ => []
  calculateLengths := fun _ => []
  changeFlagDefault := true

/-- The origin of the view, also used as the zero offset. -/
def origin : Position ℚ :=
  ⟨0, 0, 0⟩

/-- A lane of length 100 along the x axis. -/
def sampleLane : Lane ℚ where
  id := "lane_0"
  shape := [⟨0, 0, 0⟩, ⟨100, 0, 0⟩]
  finalLength := 100
  lengthGeometryFactor := 1

/-- A stop on `sampleLane` with both positions defined: start 5, end 10. -/
def sampleStop : Stop ℚ where
  startPos := 5
  endPos := 10
  duration := 0
  «until» := 0
  index := 0
  triggered := false
  containerTriggered := false
  awaitedPersons := []
  awaitedContainers := []
  parking := false
  tripId := ""
  parametersSet := 3
  myFriendlyPosition := false
  demandElementID := "stop_0"
  tagStr := "stop"
  myTagProperty := ⟨fun _ => true, fun _ => false⟩
  myLaneParents := [sampleLane]
  myAdditionalParents := []
  myGeometry := ⟨[], [], []⟩
  myMove := ⟨origin, "5", "10"⟩
  mySelected := false
  genericParameters := ""

/-- A stop on `sampleLane` with neither position defined; its saved original
positions are the empty strings `getAttribute` returns for them. -/
def unsetStop : Stop ℚ :=
  { sampleStop with
    startPos := 0
    endPos := 0
    parametersSet := 0
    myMove := ⟨origin, "", ""⟩ }

/-- A stop on `sampleLane` with only the start position defined, at 5. -/
def startOnlyStop : Stop ℚ :=
  { sampleStop with
    startPos := 5
    endPos := 0
    parametersSet := 1
    myMove := ⟨origin, "5", ""⟩ }

/-- A stop on `sampleLane` whose end position is counted from the lane end:
start 10, end -5. -/
def backwardStop : Stop ℚ :=
  { sampleStop with
    startPos := 10
    endPos := -5
    myMove := ⟨origin, "10", "-5"⟩ }

/-! ## Bit-set facts -/

theorem or_and_flag (ps flag : Nat) : (ps ||| flag) &&& flag = flag := by
  apply Nat.eq_of_testBit_eq
  intro i
  simp only [Nat.testBit_and, Nat.testBit_or]
  cases ps.testBit i <;> cases flag.testBit i <;> rfl

theorem or_ne_zero_of_left (ps flag : Nat) (h : ps ≠ 0) : ps ||| flag ≠ 0 := by
  intro hz
  apply h
  apply Nat.eq_of_testBit_eq
  intro i
  have hb := congrArg (fun n => Nat.testBit n i) hz
  simp only [Nat.testBit_or, Nat.zero_testBit] at hb
  rw [Nat.zero_testBit]
  cases hp : ps.testBit i
  · rfl
  · rw [hp] at hb
    simp at hb

theorem testBit_complement32 (flag : Nat) (h : flag < 2 ^ 32) (i : Nat) :
    (complement32 flag).testBit i = (decide (i < 32) && !flag.testBit i) := by
  have e : complement32 flag = 2 ^ 32 - (flag + 1) := by
    unfold complement32
    omega
  rw [e]
  exact Nat.testBit_two_pow_sub_succ h i

theorem and_complement_and_flag (ps flag : Nat) (h : flag < 2 ^ 32) :
    (ps &&& complement32 flag) &&& flag = 0 := by
  apply Nat.eq_of_testBit_eq
  intro i
  simp only [Nat.testBit_and, testBit_complement32 flag h, Nat.zero_testBit]
  cases ps.testBit i <;> cases flag.testBit i <;> simp

theorem and_complement_and_other (ps flag other : Nat) (h : flag < 2 ^ 32)
    (ho : other < 2 ^ 32) (hd : flag &&& other = 0) :
    (ps &&& complement32 flag) &&& other = ps &&& other := by
  apply Nat.eq_of_testBit_eq
  intro i
  have hb := congrArg (fun n => Nat.testBit n i) hd
  simp only [Nat.testBit_and, Nat.zero_testBit] at hb
  simp only [Nat.testBit_and, testBit_complement32 flag h]
  by_cases hi : i < 32
  · cases hs : flag.testBit i <;> cases he : other.testBit i <;> simp_all
  · have hfalse : other.testBit i = false :=
      Nat.testBit_lt_two_pow
        (lt_of_lt_of_le ho (Nat.pow_le_pow_right (by norm_num) (not_lt.mp hi)))
    simp [hfalse]

theorem or_flag_and_other (ps flag other : Nat) (hd : flag &&& other = 0) :
    (ps ||| flag) &&& other = ps &&& other := by
  apply Nat.eq_of_testBit_eq
  intro i
  have hb := congrArg (fun n => Nat.testBit n i) hd
  simp only [Nat.testBit_and, Nat.zero_testBit] at hb
  simp only [Nat.testBit_and, Nat.testBit_or]
  cases hs : flag.testBit i <;> cases he : other.testBit i <;> simp_all

/-! ## The geometry update leaves the stop parameters alone -/

theorem updateGeometry_startPos {K : Type} [LinearOrderedField K] (env : Env K) (s : Stop K)
    (updateGrid : Bool) (grid : List GridOp) :
    (updateGeometry env s updateGrid grid).1.startPos = s.startPos := by
  unfold updateGeometry
  cases hl : s.myLaneParents <;> cases ha : s.myAdditionalParents <;> simp [hl, ha]

theorem updateGeometry_endPos {K : Type} [LinearOrderedField K] (env : Env K) (s : Stop K)
    (updateGrid : Bool) (grid : List GridOp) :
    (updateGeometry env s updateGrid grid).1.endPos = s.endPos := by
  unfold updateGeometry
  cases hl : s.myLaneParents <;> cases ha : s.myAdditionalParents <;> simp [hl, ha]

theorem updateGeometry_parametersSet {K : Type} [LinearOrderedField K] (env : Env K)
    (s : Stop K) (updateGrid : Bool) (grid : List GridOp) :
    (updateGeometry env s updateGrid grid).1.parametersSet = s.parametersSet := by
  unfold updateGeometry
  cases hl : s.myLaneParents <;> cases ha : s.myAdditionalParents <;> simp [hl, ha]

/-! ## The private `setAttribute` in terms of its `switch` -/

theorem setAttribute_of_switch_ok {K : Type} [LinearOrderedField K] (env : Env K)
    (s s1 : Stop K) (grid : List GridOp) (key : SumoXMLAttr) (value : String)
    (h : setAttributeSwitch env s key value = .ok s1) :
    (setAttribute env s grid key value).1 = .ok () ∧
      (setAttribute env s grid key value).2.1.startPos = s1.startPos ∧
      (setAttribute env s grid key value).2.1.endPos = s1.endPos ∧
      (setAttribute env s grid key value).2.1.parametersSet = s1.parametersSet := by
  unfold setAttribute
  rw [h]
  dsimp only
  by_cases hc : (s1.myTagProperty.hasAttribute key
      && s1.myTagProperty.requiereUpdateGeometry key) = true
  · rw [if_pos hc]
    exact ⟨rfl, updateGeometry_startPos env s1 true grid, updateGeometry_endPos env s1 true grid,
      updateGeometry_parametersSet env s1 true grid⟩
  · rw [if_neg hc]
    exact ⟨rfl, rfl, rfl, rfl⟩

theorem setAttribute_of_switch_error {K : Type} [LinearOrderedField K] (env : Env K)
    (s : Stop K) (grid : List GridOp) (key : SumoXMLAttr) (value : String) (e : Err)
    (h : setAttributeSwitch env s key value = .error e) :
    setAttribute env s grid key value = (.error e, s, grid) := by
  unfold setAttribute
  rw [h]

/-! ## Set and get of the optional positions -/

/-- C3: after the private `setAttribute` on `SUMO_ATTR_STARTPOS` with value `v`,
`getAttribute` on that key returns the empty string when `v` is empty (the
start flag is then cleared and `startPos` kept) and the string of the parsed
number when `v` is non-empty and parses (the start flag is then set); in every
case `endPos` and the end flag are as before. The same holds for
`SUMO_ATTR_ENDPOS` with the roles of start and end exchanged. The two flag
constants are taken to be non-zero, disjoint 32-bit patterns. -/
theorem setAttribute_getAttribute_positions {K : Type} [LinearOrderedField K] (env : Env K)
    (s : Stop K) (grid : List GridOp) (v : String)
    (hS : env.STOP_START_SET ≠ 0) (hE : env.STOP_END_SET ≠ 0)
    (hS32 : env.STOP_START_SET < 2 ^ 32) (hE32 : env.STOP_END_SET < 2 ^ 32)
    (hd : env.STOP_START_SET &&& env.STOP_END_SET = 0) :
    ((v = "" →
        (setAttribute env s grid .SUMO_ATTR_STARTPOS v).1 = .ok () ∧
        getAttribute env (setAttribute env s grid .SUMO_ATTR_STARTPOS v).2.1
          .SUMO_ATTR_STARTPOS = .ok "" ∧
        (setAttribute env s grid .SUMO_ATTR_STARTPOS v).2.1.parametersSet
          &&& env.STOP_START_SET = 0 ∧
        (setAttribute env s grid .SUMO_ATTR_STARTPOS v).2.1.startPos = s.startPos) ∧
      (∀ d : K, v ≠ "" → env.parseDouble v = some d →
        (setAttribute env s grid .SUMO_ATTR_STARTPOS v).1 = .ok () ∧
        getAttribute env (setAttribute env s grid .SUMO_ATTR_STARTPOS v).2.1
          .SUMO_ATTR_STARTPOS = .ok (env.toStringDouble d) ∧
        (setAttribute env s grid .SUMO_ATTR_STARTPOS v).2.1.parametersSet
          &&& env.STOP_START_SET ≠ 0) ∧
      (setAttribute env s grid .SUMO_ATTR_STARTPOS v).2.1.endPos = s.endPos ∧
      (setAttribute env s grid .SUMO_ATTR_STARTPOS v).2.1.parametersSet &&& env.STOP_END_SET
        = s.parametersSet &&& env.STOP_END_SET) ∧
    ((v = "" →
        (setAttribute env s grid .SUMO_ATTR_ENDPOS v).1 = .ok () ∧
        getAttribute env (setAttribute env s grid .SUMO_ATTR_ENDPOS v).2.1
          .SUMO_ATTR_ENDPOS = .ok "" ∧
        (setAttribute env s grid .SUMO_ATTR_ENDPOS v).2.1.parametersSet
          &&& env.STOP_END_SET = 0 ∧
        (setAttribute env s grid .SUMO_ATTR_ENDPOS v).2.1.endPos = s.endPos) ∧
      (∀ d : K, v ≠ "" → env.parseDouble v = some d →
        (setAttribute env s grid .SUMO_ATTR_ENDPOS v).1 = .ok () ∧
        getAttribute env (setAttribute env s grid .SUMO_ATTR_ENDPOS v).2.1
          .SUMO_ATTR_ENDPOS = .ok (env.toStringDouble d) ∧
        (setAttribute env s grid .SUMO_ATTR_ENDPOS v).2.1.parametersSet
          &&& env.STOP_END_SET ≠ 0) ∧
      (setAttribute env s grid .SUMO_ATTR_ENDPOS v).2.1.startPos = s.startPos ∧
      (setAttribute env s grid .SUMO_ATTR_ENDPOS v).2.1.parametersSet &&& env.STOP_START_SET
        = s.parametersSet &&& env.STOP_START_SET) := by
  have hd2 : env.STOP_END_SET &&& env.STOP_START_SET = 0 := by
    rw [Nat.land_comm]
    exact hd
  refine ⟨⟨?_, ?_, ?_⟩, ⟨?_, ?_, ?_⟩⟩
  · intro hv
    obtain ⟨h1, h2, _, h4⟩ := setAttribute_of_switch_ok env s
      { s with parametersSet := s.parametersSet &&& complement32 env.STOP_START_SET } grid
      .SUMO_ATTR_STARTPOS v (by simp [setAttributeSwitch, hv])
    have hz := and_complement_and_flag s.parametersSet env.STOP_START_SET hS32
    refine ⟨h1, ?_, ?_, h2⟩
    · simp [getAttribute, h4, hz]
    · rw [h4]
      exact hz
  · intro d hv hp
    obtain ⟨h1, h2, _, h4⟩ := setAttribute_of_switch_ok env s
      { s with startPos := d, parametersSet := s.parametersSet ||| env.STOP_START_SET } grid
      .SUMO_ATTR_STARTPOS v (by simp [setAttributeSwitch, hv, hp])
    have hz := or_and_flag s.parametersSet env.STOP_START_SET
    refine ⟨h1, ?_, ?_⟩
    · simp [getAttribute, h4, hz, hS, h2]
    · rw [h4, hz]
      exact hS
  · by_cases hv : v = ""
    · obtain ⟨_, _, h3, h4⟩ := setAttribute_of_switch_ok env s
        { s with parametersSet := s.parametersSet &&& complement32 env.STOP_START_SET } grid
        .SUMO_ATTR_STARTPOS v (by simp [setAttributeSwitch, hv])
      refine ⟨h3, ?_⟩
      rw [h4]
      exact and_complement_and_other s.parametersSet _ _ hS32 hE32 hd
    · cases hp : env.parseDouble v with
      | none =>
        rw [setAttribute_of_switch_error env s grid .SUMO_ATTR_STARTPOS v .thrown
          (by simp [setAttributeSwitch, hv, hp])]
        exact ⟨rfl, rfl⟩
      | some d =>
        obtain ⟨_, _, h3, h4⟩ := setAttribute_of_switch_ok env s
          { s with startPos := d, parametersSet := s.parametersSet ||| env.STOP_START_SET } grid
          .SUMO_ATTR_STARTPOS v (by simp [setAttributeSwitch, hv, hp])
        refine ⟨h3, ?_⟩
        rw [h4]
        exact or_flag_and_other s.parametersSet _ _ hd
  · intro hv
    obtain ⟨h1, _, h3, h4⟩ := setAttribute_of_switch_ok env s
      { s with parametersSet := s.parametersSet &&& complement32 env.STOP_END_SET } grid
      .SUMO_ATTR_ENDPOS v (by simp [setAttributeSwitch, hv])
    have hz := and_complement_and_flag s.parametersSet env.STOP_END_SET hE32
    refine ⟨h1, ?_, ?_, h3⟩
    · simp [getAttribute, h4, hz]
    · rw [h4]
      exact hz
  · intro d hv hp
    obtain ⟨h1, _, h3, h4⟩ := setAttribute_of_switch_ok env s
      { s with endPos := d, parametersSet := s.parametersSet ||| env.STOP_END_SET } grid
      .SUMO_ATTR_ENDPOS v (by simp [setAttributeSwitch, hv, hp])
    have hz := or_and_flag s.parametersSet env.STOP_END_SET
    refine ⟨h1, ?_, ?_⟩
    · simp [getAttribute, h4, hz, hE, h3]
    · rw [h4, hz]
      exact hE
  · by_cases hv : v = ""
    · obtain ⟨_, h2, _, h4⟩ := setAttribute_of_switch_ok env s
        { s with parametersSet := s.parametersSet &&& complement32 env.STOP_END_SET } grid
        .SUMO_ATTR_ENDPOS v (by simp [setAttributeSwitch, hv])
      refine ⟨h2, ?_⟩
      rw [h4]
      exact and_complement_and_other s.parametersSet _ _ hE32 hS32 hd2
    · cases hp : env.parseDouble v with
      | none =>
        rw [setAttribute_of_switch_error env s grid .SUMO_ATTR_ENDPOS v .thrown
          (by simp [setAttributeSwitch, hv, hp])]
        exact ⟨rfl, rfl⟩
      | some d =>
        obtain ⟨_, h2, _, h4⟩ := setAttribute_of_switch_ok env s
          { s with endPos := d, parametersSet := s.parametersSet ||| env.STOP_END_SET } grid
          .SUMO_ATTR_ENDPOS v (by simp [setAttributeSwitch, hv, hp])
        refine ⟨h2, ?_⟩
        rw [h4]
        exact or_flag_and_other s.parametersSet _ _ hd2

/-- C3 witness: on `sampleStop`, setting the start position to "10" and reading
it back gives the string of 10, and the start flag is set. -/
theorem setAttribute_getAttribute_positions_witness :
    sampleEnv.parseDouble "10" = some 10 ∧
    getAttribute sampleEnv (setAttribute sampleEnv sampleStop [] .SUMO_ATTR_STARTPOS "10").2.1
      .SUMO_ATTR_STARTPOS = .ok (sampleEnv.toStringDouble 10) ∧
    (setAttribute sampleEnv sampleStop [] .SUMO_ATTR_STARTPOS "10").2.1.parametersSet
      &&& sampleEnv.STOP_START_SET ≠ 0 :=
  ⟨rfl,
    ((setAttribute_getAttribute_positions sampleEnv sampleStop [] "10" (by decide) (by decide)
      (by decide) (by decide) (by decide)).1.2.1 10 (by decide) rfl).2⟩

/-! ## The undo-list `setAttribute` -/

/-- C1 (amended): for every key of the stop attribute set that the parents of
the stop back (the four stopping-place keys on a stop with an additional
parent, `SUMO_ATTR_LANE` on a stop with a lane parent, each other key on every
stop), `getAttribute` returns a value; the call leaves the undo list as it is
when `value` equals that value, and otherwise appends exactly one change
carrying `(key, value)`; in both cases the stop is returned unchanged. -/
theorem setAttributeWithUndoList_avoids_needless_changes {K : Type} (env : Env K)
    (s : Stop K) (key : SumoXMLAttr) (value : String) (undoList : List UndoOp)
    (hkey : key ∈ stopAttributes)
    (hadditional : key = .SUMO_ATTR_BUS_STOP ∨ key = .SUMO_ATTR_CONTAINER_STOP
      ∨ key = .SUMO_ATTR_CHARGING_STATION ∨ key = .SUMO_ATTR_PARKING_AREA →
      s.myAdditionalParents ≠ [])
    (hlane : key = .SUMO_ATTR_LANE → s.myLaneParents ≠ []) :
    (∃ current : String, getAttribute env s key = .ok current) ∧
    (∀ current : String, getAttribute env s key = .ok current →
      (value = current →
        setAttributeWithUndoList env s key value undoList = (.ok (), s, undoList)) ∧
      (value ≠ current →
        setAttributeWithUndoList env s key value undoList
          = (.ok (), s, undoList ++ [UndoOp.p_add key value none]))) ∧
    (setAttributeWithUndoList env s key value undoList).2.1 = s := by
  have hmem := hkey
  simp only [stopAttributes, List.mem_cons, List.mem_singleton, List.mem_nil_iff,
    or_false] at hmem
  have hget : ∃ current : String, getAttribute env s key = .ok current := by
    rcases hmem with h | h | h | h | h | h | h | h | h | h | h | h | h | h | h | h | h | h
      | h | h | h <;> subst h
    case inr.inr.inr.inr.inr.inr.inr.inr.inr.inr.inr.inl =>
      cases ha : s.myAdditionalParents with
      | nil => exact absurd ha (hadditional (by simp))
      | cons a rest => exact ⟨a.id, by simp [getAttribute, ha]⟩
    case inr.inr.inr.inr.inr.inr.inr.inr.inr.inr.inr.inr.inl =>
      cases ha : s.myAdditionalParents with
      | nil => exact absurd ha (hadditional (by simp))
      | cons a rest => exact ⟨a.id, by simp [getAttribute, ha]⟩
    case inr.inr.inr.inr.inr.inr.inr.inr.inr.inr.inr.inr.inr.inl =>
      cases ha : s.myAdditionalParents with
      | nil => exact absurd ha (hadditional (by simp))
      | cons a rest => exact ⟨a.id, by simp [getAttribute, ha]⟩
    case inr.inr.inr.inr.inr.inr.inr.inr.inr.inr.inr.inr.inr.inr.inl =>
      cases ha : s.myAdditionalParents with
      | nil => exact absurd ha (hadditional (by simp))
      | cons a rest => exact ⟨a.id, by simp [getAttribute, ha]⟩
    case inr.inr.inr.inr.inr.inr.inr.inr.inr.inr.inr.inr.inr.inr.inr.inl =>
      cases hl : s.myLaneParents with
      | nil => exact absurd hl (hlane rfl)
      | cons lane rest => exact ⟨lane.id, by simp [getAttribute, hl]⟩
    all_goals
      simp only [getAttribute]
      first
        | exact ⟨_, rfl⟩
        | (split <;> exact ⟨_, rfl⟩)
  have hok : ∀ current : String, getAttribute env s key = .ok current →
      (value = current →
        setAttributeWithUndoList env s key value undoList = (.ok (), s, undoList)) ∧
      (value ≠ current →
        setAttributeWithUndoList env s key value undoList
          = (.ok (), s, undoList ++ [UndoOp.p_add key value none])) := by
    intro current hg
    constructor
    · intro hv
      unfold setAttributeWithUndoList
      rw [hg]
      simp [hv]
    · intro hv
      unfold setAttributeWithUndoList
      rw [hg]
      rcases hmem with h | h | h | h | h | h | h | h | h | h | h | h | h | h | h | h | h | h
        | h | h | h <;> subst h <;> simp [hv]
  refine ⟨hget, hok, ?_⟩
  obtain ⟨current, hg⟩ := hget
  by_cases hv : value = current
  · rw [(hok current hg).1 hv]
  · rw [(hok current hg).2 hv]

/-- C1 witness: `sampleStop` has a lane parent with id "lane_0" and an empty trip
id. Setting the lane to "lane_1" or the trip id to "t1" appends one change;
setting the trip id to the empty string appends none. -/
theorem setAttributeWithUndoList_avoids_needless_changes_witness :
    SumoXMLAttr.SUMO_ATTR_LANE ∈ stopAttributes ∧
    sampleStop.myLaneParents ≠ [] ∧
    getAttribute sampleEnv sampleStop .SUMO_ATTR_LANE = .ok "lane_0" ∧
    setAttributeWithUndoList sampleEnv sampleStop .SUMO_ATTR_LANE "lane_1" []
      = (.ok (), sampleStop, [UndoOp.p_add .SUMO_ATTR_LANE "lane_1" none]) ∧
    setAttributeWithUndoList sampleEnv sampleStop .SUMO_ATTR_TRIP_ID "t1" []
      = (.ok (), sampleStop, [UndoOp.p_add .SUMO_ATTR_TRIP_ID "t1" none]) ∧
    setAttributeWithUndoList sampleEnv sampleStop .SUMO_ATTR_TRIP_ID "" []
      = (.ok (), sampleStop, []) :=
  ⟨by decide, by simp [sampleStop], rfl,
    ((setAttributeWithUndoList_avoids_needless_changes sampleEnv sampleStop .SUMO_ATTR_LANE
      "lane_1" [] (by decide) (by simp) (by simp [sampleStop])).2.1 "lane_0" rfl).2 (by decide),
    ((setAttributeWithUndoList_avoids_needless_changes sampleEnv sampleStop .SUMO_ATTR_TRIP_ID
      "t1" [] (by decide) (by simp) (by simp)).2.1 "" rfl).2 (by decide),
    ((setAttributeWithUndoList_avoids_needless_changes sampleEnv sampleStop .SUMO_ATTR_TRIP_ID
      "" [] (by decide) (by simp) (by simp)).2.1 "" rfl).1 rfl⟩

/-- C1 counterexample: `SUMO_ATTR_BUS_STOP` is a key of the stop attribute set,
and `sampleStop` is a stop on a lane, without additional parent. `getAttribute`
on that key reads the front of the empty list, so the call with a value of
"bs_0" faults and the undo list does not receive the change. -/
theorem setAttributeWithUndoList_missing_parent_counterexample :
    SumoXMLAttr.SUMO_ATTR_BUS_STOP ∈ stopAttributes ∧
    sampleStop.myAdditionalParents = [] ∧
    getAttribute sampleEnv sampleStop .SUMO_ATTR_BUS_STOP = .error .emptyFront ∧
    setAttributeWithUndoList sampleEnv sampleStop .SUMO_ATTR_BUS_STOP "bs_0" []
      = (.error .emptyFront, sampleStop, []) ∧
    (setAttributeWithUndoList sampleEnv sampleStop .SUMO_ATTR_BUS_STOP "bs_0" []).2.2
      ≠ [UndoOp.p_add .SUMO_ATTR_BUS_STOP "bs_0" none] :=
  ⟨by decide, rfl, rfl, rfl, by decide⟩

/-! ## The four attribute methods accept the same keys -/

theorem isInvalidArgument_setAttribute {K : Type} [LinearOrderedField K] (env : Env K)
    (s : Stop K) (grid : List GridOp) (key : SumoXMLAttr) (value : String) :
    isInvalidArgument (setAttribute env s grid key value).1
      = isInvalidArgument (setAttributeSwitch env s key value) := by
  cases h : setAttributeSwitch env s key value with
  | error e =>
    rw [setAttribute_of_switch_error env s grid key value e h]
    cases e <;> rfl
  | ok s1 =>
    rw [(setAttribute_of_switch_ok env s s1 grid key value h).1]
    rfl

/-- C2: `getAttribute`, the undo-list `setAttribute`, `isValid` and the private
`setAttribute` accept the same keys. For a key outside the stop attribute set
each of the four fails with `InvalidArgument` and leaves the stop, the undo
list and the grid as they were; for a key inside the set none of the four
fails with `InvalidArgument`. -/
theorem attribute_methods_accept_same_keys {K : Type} [LinearOrderedField K] (env : Env K)
    (s : Stop K) (key : SumoXMLAttr) (value : String) (undoList : List UndoOp)
    (grid : List GridOp) :
    (key ∉ stopAttributes →
      getAttribute env s key = .error (.InvalidArgument (noAttributeMessage env s key)) ∧
      setAttributeWithUndoList env s key value undoList
        = (.error (.InvalidArgument (noAttributeMessage env s key)), s, undoList) ∧
      isValid env s key value
        = (.error (.InvalidArgument (noAttributeMessage env s key)), s) ∧
      setAttribute env s grid key value
        = (.error (.InvalidArgument (noAttributeMessage env s key)), s, grid)) ∧
    (key ∈ stopAttributes →
      isInvalidArgument (getAttribute env s key) = false ∧
      isInvalidArgument (setAttributeWithUndoList env s key value undoList).1 = false ∧
      isInvalidArgument (isValid env s key value).1 = false ∧
      isInvalidArgument (setAttribute env s grid key value).1 = false) := by
  constructor
  · intro hkey
    have hget : getAttribute env s key
        = .error (.InvalidArgument (noAttributeMessage env s key)) := by
      cases key <;> first | rfl | exact absurd (by decide) hkey
    have hsw : setAttributeSwitch env s key value
        = .error (.InvalidArgument (noAttributeMessage env s key)) := by
      cases key <;> first | rfl | exact absurd (by decide) hkey
    refine ⟨hget, ?_, ?_, setAttribute_of_switch_error env s grid key value _ hsw⟩
    · unfold setAttributeWithUndoList
      rw [hget]
    · cases key <;> first | rfl | exact absurd (by decide) hkey
  · intro hkey
    simp only [stopAttributes, List.mem_cons, List.mem_singleton, List.mem_nil_iff,
      or_false] at hkey
    have hget : isInvalidArgument (getAttribute env s key) = false := by
      rcases hkey with h | h | h | h | h | h | h | h | h | h | h | h | h | h | h | h | h | h
        | h | h | h <;> subst h <;> simp only [getAttribute] <;>
        (repeat (first | rfl | split))
    refine ⟨hget, ?_, ?_, ?_⟩
    · unfold setAttributeWithUndoList
      cases hg : getAttribute env s key with
      | error e =>
        rw [hg] at hget
        cases e
        · exact absurd hget (by simp [isInvalidArgument])
        · rfl
        · rfl
      | ok current =>
        by_cases hv : value = current
        · simp [hv, isInvalidArgument]
        · rcases hkey with h | h | h | h | h | h | h | h | h | h | h | h | h | h | h | h | h
            | h | h | h | h <;> subst h <;> simp [hv, isInvalidArgument]
    · rcases hkey with h | h | h | h | h | h | h | h | h | h | h | h | h | h | h | h | h | h
        | h | h | h <;> subst h <;> simp only [isValid] <;>
        (repeat (first | rfl | split))
    · rw [isInvalidArgument_setAttribute]
      rcases hkey with h | h | h | h | h | h | h | h | h | h | h | h | h | h | h | h | h | h
        | h | h | h <;> subst h <;> simp only [setAttributeSwitch] <;>
        (repeat (first | rfl | split))

/-- C2 witness: `SUMO_ATTR_PERIOD` is outside the set and is refused by
`isValid` with the state untouched; `SUMO_ATTR_ACTTYPE` is inside the set and
`isValid` answers without an `InvalidArgument`. -/
theorem attribute_methods_accept_same_keys_witness :
    SumoXMLAttr.SUMO_ATTR_PERIOD ∉ stopAttributes ∧
    isValid sampleEnv sampleStop .SUMO_ATTR_PERIOD "1"
      = (.error (.InvalidArgument (noAttributeMessage sampleEnv sampleStop .SUMO_ATTR_PERIOD)),
          sampleStop) ∧
    SumoXMLAttr.SUMO_ATTR_ACTTYPE ∈ stopAttributes ∧
    isInvalidArgument (isValid sampleEnv sampleStop .SUMO_ATTR_ACTTYPE "1").1 = false :=
  ⟨by decide,
    ((attribute_methods_accept_same_keys sampleEnv sampleStop .SUMO_ATTR_PERIOD "1" [] []).1
      (by decide)).2.2.1,
    by decide,
    ((attribute_methods_accept_same_keys sampleEnv sampleStop .SUMO_ATTR_ACTTYPE "1" [] []).2
      (by decide)).2.2.1⟩

/-! ## Validity of the optional positions -/

/-- C7: for a stop whose first lane parent is `lane`, `isValid` on
`SUMO_ATTR_STARTPOS` is true for the empty value, false for a non-empty value
that does not parse as a double, and otherwise the answer of
`checkStoppinPlacePosition` on the value, the string of `endPos`, the final
length of the edge of `lane` and the friendly-position flag; on
`SUMO_ATTR_ENDPOS` it is the same with the string of `startPos` first and the
value second. On `SUMO_ATTR_EXPECTED` and `SUMO_ATTR_EXPECTED_CONTAINERS` the
empty value is valid, and on `SUMO_ATTR_ACTTYPE` no value is valid. -/
theorem isValid_optional_positions {K : Type} (env : Env K) (s : Stop K) (v : String)
    (lane : Lane K) (rest : List (Lane K)) (hlane : s.myLaneParents = lane :: rest) :
    (isValid env s .SUMO_ATTR_STARTPOS "").1 = .ok true ∧
    (v ≠ "" → env.parseDouble v = none →
      (isValid env s .SUMO_ATTR_STARTPOS v).1 = .ok false) ∧
    (∀ d : K, v ≠ "" → env.parseDouble v = some d →
      (isValid env s .SUMO_ATTR_STARTPOS v).1
        = .ok (env.checkStoppinPlacePosition v (env.toStringDouble s.endPos)
            lane.finalLength s.myFriendlyPosition)) ∧
    (isValid env s .SUMO_ATTR_ENDPOS "").1 = .ok true ∧
    (v ≠ "" → env.parseDouble v = none →
      (isValid env s .SUMO_ATTR_ENDPOS v).1 = .ok false) ∧
    (∀ d : K, v ≠ "" → env.parseDouble v = some d →
      (isValid env s .SUMO_ATTR_ENDPOS v).1
        = .ok (env.checkStoppinPlacePosition (env.toStringDouble s.startPos) v
            lane.finalLength s.myFriendlyPosition)) ∧
    (isValid env s .SUMO_ATTR_EXPECTED "").1 = .ok true ∧
    (isValid env s .SUMO_ATTR_EXPECTED_CONTAINERS "").1 = .ok true ∧
    (isValid env s .SUMO_ATTR_ACTTYPE v).1 = .ok false := by
  refine ⟨?_, ?_, ?_, ?_, ?_, ?_, ?_, ?_, ?_⟩
  · simp [isValid]
  · intro hv hp
    simp [isValid, hv, canParse, hp]
  · intro d hv hp
    simp [isValid, hv, canParse, hp, hlane]
  · simp [isValid]
  · intro hv hp
    simp [isValid, hv, canParse, hp]
  · intro d hv hp
    simp [isValid, hv, canParse, hp, hlane]
  · simp [isValid]
  · simp [isValid]
  · simp [isValid]

/-- C7 witness: on `sampleStop` (friendly position off) the start value "5"
parses and gets the answer of the position check, and "abc" is refused. -/
theorem isValid_optional_positions_witness :
    sampleStop.myLaneParents = sampleLane :: [] ∧
    sampleEnv.parseDouble "5" = some 5 ∧
    (isValid sampleEnv sampleStop .SUMO_ATTR_STARTPOS "5").1
      = .ok (sampleEnv.checkStoppinPlacePosition "5" (sampleEnv.toStringDouble sampleStop.endPos)
          sampleLane.finalLength sampleStop.myFriendlyPosition) ∧
    sampleEnv.parseDouble "abc" = none ∧
    (isValid sampleEnv sampleStop .SUMO_ATTR_ENDPOS "abc").1 = .ok false :=
  ⟨rfl, rfl,
    (isValid_optional_positions sampleEnv sampleStop "5" sampleLane [] rfl).2.2.1 5
      (by decide) rfl,
    rfl,
    (isValid_optional_positions sampleEnv sampleStop "abc" sampleLane [] rfl).2.2.2.2.1
      (by decide) rfl⟩

/-! ## The geometry update -/

/-- C8: `updateGeometry` takes the shape from the first lane parent when there
is one (also when there are additional parents): the subpart of the lane shape
between the start and end geometry positions, with rotations and lengths
computed from it. With no lane parent and an additional parent, shape, lengths
and rotations are those of the first additional parent. With no parent of
either kind the geometry is empty. The grid records one removal followed by
one insertion exactly when `updateGrid` is true, and `startPos`, `endPos` and
`parametersSet` are unchanged. -/
theorem updateGeometry_uses_parent_geometry {K : Type} [LinearOrderedField K] (env : Env K)
    (s : Stop K) (updateGrid : Bool) (grid : List GridOp) :
    (∀ (lane : Lane K) (rest : List (Lane K)), s.myLaneParents = lane :: rest →
      (updateGeometry env s updateGrid grid).1.myGeometry.shape
        = env.getSubpart lane.shape (getStartGeometryPositionOverLane env s lane)
            (getEndGeometryPositionOverLane env s lane) ∧
      (updateGeometry env s updateGrid grid).1.myGeometry.shapeRotations
        = env.calculateRotations (updateGeometry env s updateGrid grid).1.myGeometry.shape ∧
      (updateGeometry env s updateGrid grid).1.myGeometry.shapeLengths
        = env.calculateLengths (updateGeometry env s updateGrid grid).1.myGeometry.shape) ∧
    (∀ (a : Additional K) (rest : List (Additional K)), s.myLaneParents = [] →
      s.myAdditionalParents = a :: rest →
      (updateGeometry env s updateGrid grid).1.myGeometry.shape = a.geometry.shape ∧
      (updateGeometry env s updateGrid grid).1.myGeometry.shapeLengths
        = a.geometry.shapeLengths ∧
      (updateGeometry env s updateGrid grid).1.myGeometry.shapeRotations
        = a.geometry.shapeRotations) ∧
    (s.myLaneParents = [] → s.myAdditionalParents = [] →
      (updateGeometry env s updateGrid grid).1.myGeometry = ⟨[], [], []⟩) ∧
    (updateGeometry env s updateGrid grid).2
      = (if updateGrid then
          grid ++ [GridOp.removeGLObjectFromGrid, GridOp.addGLObjectIntoGrid]
        else grid) ∧
    (updateGeometry env s updateGrid grid).1.startPos = s.startPos ∧
    (updateGeometry env s updateGrid grid).1.endPos = s.endPos ∧
    (updateGeometry env s updateGrid grid).1.parametersSet = s.parametersSet := by
  refine ⟨?_, ?_, ?_, ?_, updateGeometry_startPos env s updateGrid grid,
    updateGeometry_endPos env s updateGrid grid,
    updateGeometry_parametersSet env s updateGrid grid⟩
  · intro lane rest hl
    simp [updateGeometry, hl, Geometry.calculateShapeRotationsAndLengths,
      Geometry.clearGeometry, getStartGeometryPositionOverLane, getEndGeometryPositionOverLane]
  · intro a rest hl ha
    simp [updateGeometry, hl, ha]
  · intro hl ha
    simp [updateGeometry, hl, ha, Geometry.clearGeometry]
  · cases updateGrid <;> simp [updateGeometry]

/-- C8 witness: `sampleStop` has a lane parent, so its shape after the update
is the subpart of the lane shape, and an update with `updateGrid` set records
a removal followed by an insertion. -/
theorem updateGeometry_uses_parent_geometry_witness :
    sampleStop.myLaneParents = sampleLane :: [] ∧
    (updateGeometry sampleEnv sampleStop true []).1.myGeometry.shape
      = sampleEnv.getSubpart sampleLane.shape
          (getStartGeometryPositionOverLane sampleEnv sampleStop sampleLane)
          (getEndGeometryPositionOverLane sampleEnv sampleStop sampleLane) ∧
    (updateGeometry sampleEnv sampleStop true []).2
      = [GridOp.removeGLObjectFromGrid, GridOp.addGLObjectIntoGrid] :=
  ⟨rfl,
    ((updateGeometry_uses_parent_geometry sampleEnv sampleStop true []).1 sampleLane [] rfl).1,
    (updateGeometry_uses_parent_geometry sampleEnv sampleStop true []).2.2.2.1⟩

/-! ## Moving the stop along its lane -/

theorem ne_zero_of_and_ne_zero (ps flag : Nat) (h : ps &&& flag ≠ 0) : ps ≠ 0 := by
  intro hz
  apply h
  rw [hz]
  exact Nat.zero_and flag

/-- When the set is not empty before the call, `moveGeometry` on a lane stop
whose two original positions parse runs the branch that moves both positions. -/
theorem moveGeometry_both_moved {K : Type} [LinearOrderedField K] (env : Env K) (s : Stop K)
    (grid : List GridOp) (offset : Position K) (lane : Lane K) (rest : List (Lane K))
    (first second : K) (hlane : s.myLaneParents = lane :: rest) (hps : s.parametersSet ≠ 0)
    (hfirst : env.parseDouble s.myMove.firstOriginalLanePosition = some first)
    (hsecond : env.parseDouble s.myMove.secondOriginalPosition = some second) :
    (moveGeometry env s grid offset).1 = .ok () ∧
    (moveGeometry env s grid offset).2.1.startPos
      = (if first + offsetLane env s lane offset < 0 then 0
        else if second + offsetLane env s lane offset
            > lane.finalLength * lane.lengthGeometryFactor then
          lane.finalLength * lane.lengthGeometryFactor - |second - first|
        else first + offsetLane env s lane offset) ∧
    (moveGeometry env s grid offset).2.1.endPos
      = (if first + offsetLane env s lane offset < 0 then |second - first|
        else if second + offsetLane env s lane offset
            > lane.finalLength * lane.lengthGeometryFactor then
          lane.finalLength * lane.lengthGeometryFactor
        else second + offsetLane env s lane offset) := by
  have h1 : orAssign s.parametersSet env.STOP_START_SET ≠ 0 :=
    or_ne_zero_of_left _ _ hps
  have h3 : orAssign (orAssign s.parametersSet env.STOP_START_SET) env.STOP_START_SET ≠ 0 :=
    or_ne_zero_of_left _ _ h1
  have h4 : orAssign (orAssign (orAssign s.parametersSet env.STOP_START_SET)
      env.STOP_START_SET) env.STOP_END_SET ≠ 0 := or_ne_zero_of_left _ _ h3
  unfold moveGeometry
  rw [hlane]
  simp only [h1, h3, h4, hfirst, hsecond, ne_eq, not_false_eq_true, if_true, and_self]
  refine ⟨trivial, ?_, ?_⟩
  · rw [updateGeometry_startPos]
    split_ifs <;> rfl
  · rw [updateGeometry_endPos]
    split_ifs <;> rfl

/-- C5 (amended): for a stop on a lane with both positions defined and both
original positions parsed, `moveGeometry` returns normally and the distance
between the new `startPos` and `endPos` is the original length
`|second - first|` in each of its three branches. The signed difference
`endPos - startPos` equals that length in the two clamped branches; in the
shifted branch it equals `second - first`, hence the length whenever
`first ≤ second`. -/
theorem moveGeometry_keeps_length {K : Type} [LinearOrderedField K] (env : Env K) (s : Stop K)
    (grid : List GridOp) (offset : Position K) (lane : Lane K) (rest : List (Lane K))
    (first second : K) (hlane : s.myLaneParents = lane :: rest)
    (hboth : s.parametersSet &&& env.STOP_START_SET ≠ 0
      ∧ s.parametersSet &&& env.STOP_END_SET ≠ 0)
    (hfirst : env.parseDouble s.myMove.firstOriginalLanePosition = some first)
    (hsecond : env.parseDouble s.myMove.secondOriginalPosition = some second) :
    (moveGeometry env s grid offset).1 = .ok () ∧
    |(moveGeometry env s grid offset).2.1.endPos - (moveGeometry env s grid offset).2.1.startPos|
      = |second - first| ∧
    (first + offsetLane env s lane offset < 0 →
      (moveGeometry env s grid offset).2.1.endPos - (moveGeometry env s grid offset).2.1.startPos
        = |second - first|) ∧
    (¬ first + offsetLane env s lane offset < 0 →
      second + offsetLane env s lane offset > lane.finalLength * lane.lengthGeometryFactor →
      (moveGeometry env s grid offset).2.1.endPos - (moveGeometry env s grid offset).2.1.startPos
        = |second - first|) ∧
    (¬ first + offsetLane env s lane offset < 0 →
      ¬ second + offsetLane env s lane offset > lane.finalLength * lane.lengthGeometryFactor →
      (moveGeometry env s grid offset).2.1.endPos - (moveGeometry env s grid offset).2.1.startPos
        = second - first) ∧
    (first ≤ second →
      (moveGeometry env s grid offset).2.1.endPos - (moveGeometry env s grid offset).2.1.startPos
        = |second - first|) := by
  obtain ⟨hok, hs, he⟩ := moveGeometry_both_moved env s grid offset lane rest first second hlane
    (ne_zero_of_and_ne_zero _ _ hboth.1) hfirst hsecond
  rw [hs, he]
  refine ⟨hok, ?_, ?_, ?_, ?_, ?_⟩
  · split_ifs
    · simp
    · simp
    · congr 1
      ring
  · intro h
    simp [h]
  · intro h1 h2
    simp [h1, h2]
  · intro h1 h2
    simp [h1, h2]
  · intro hle
    have habs : |second - first| = second - first := abs_of_nonneg (sub_nonneg.mpr hle)
    split_ifs
    · simp
    · simp
    · rw [habs]
      ring

/-- C5 witness: `sampleStop` has start 5 and end 10 on a lane of length 100;
moved by the zero offset it keeps the signed length 5. -/
theorem moveGeometry_keeps_length_witness :
    sampleStop.myLaneParents = sampleLane :: [] ∧
    sampleStop.parametersSet &&& sampleEnv.STOP_START_SET ≠ 0 ∧
    sampleStop.parametersSet &&& sampleEnv.STOP_END_SET ≠ 0 ∧
    sampleEnv.parseDouble sampleStop.myMove.firstOriginalLanePosition = some 5 ∧
    sampleEnv.parseDouble sampleStop.myMove.secondOriginalPosition = some 10 ∧
    (moveGeometry sampleEnv sampleStop [] origin).2.1.endPos
      - (moveGeometry sampleEnv sampleStop [] origin).2.1.startPos = |(10 : ℚ) - 5| :=
  ⟨rfl, by decide, by decide, rfl, rfl,
    (moveGeometry_keeps_length sampleEnv sampleStop [] origin sampleLane [] 5 10 rfl
      ⟨by decide, by decide⟩ rfl rfl).2.2.2.2.2 (by norm_num)⟩

/-- C5 counterexample: `backwardStop` has both positions defined, start 10 and
end -5. Moved by the zero offset it takes the shifted branch and ends with
`endPos - startPos = -15`, which is not the original length 15. -/
theorem moveGeometry_length_counterexample :
    backwardStop.myLaneParents = sampleLane :: [] ∧
    backwardStop.parametersSet &&& sampleEnv.STOP_START_SET ≠ 0 ∧
    backwardStop.parametersSet &&& sampleEnv.STOP_END_SET ≠ 0 ∧
    sampleEnv.parseDouble backwardStop.myMove.firstOriginalLanePosition = some 10 ∧
    sampleEnv.parseDouble backwardStop.myMove.secondOriginalPosition = some (-5) ∧
    (moveGeometry sampleEnv backwardStop [] origin).1 = .ok () ∧
    (moveGeometry sampleEnv backwardStop [] origin).2.1.startPos = 10 ∧
    (moveGeometry sampleEnv backwardStop [] origin).2.1.endPos = -5 ∧
    (moveGeometry sampleEnv backwardStop [] origin).2.1.endPos
      - (moveGeometry sampleEnv backwardStop [] origin).2.1.startPos ≠ |(-5 : ℚ) - 10| := by
  obtain ⟨hok, hs, he⟩ := moveGeometry_both_moved sampleEnv backwardStop [] origin sampleLane []
    10 (-5) rfl (by decide) rfl rfl
  have hoff : offsetLane sampleEnv backwardStop sampleLane origin = 0 := by
    simp [offsetLane, sampleEnv, backwardStop, origin, Position.add]
  have hlen : sampleLane.finalLength * sampleLane.lengthGeometryFactor = 100 := by
    simp [sampleLane]
  rw [hoff, hlen] at hs he
  norm_num at hs he
  refine ⟨rfl, by decide, by decide, rfl, rfl, hok, hs, he, ?_⟩
  rw [hs, he]
  norm_num [abs_of_neg]

/-! ## The flag tests written with `|=` -/

/-- C4: evaluation of `moveGeometry` on `unsetStop`, a stop on a lane with
neither position defined, moved by the zero offset. The conditions written
with `|=` set both flags, the branch that moves both positions is entered and
parsing the empty original position throws: `parametersSet` goes from 0 to 3.
A stop without lane parent is returned as it is. -/
theorem moveGeometry_on_stop_without_positions :
    unsetStop.myLaneParents = sampleLane :: [] ∧
    unsetStop.parametersSet &&& sampleEnv.STOP_START_SET = 0 ∧
    unsetStop.parametersSet &&& sampleEnv.STOP_END_SET = 0 ∧
    (moveGeometry sampleEnv unsetStop [] origin).1 = .error .thrown ∧
    (moveGeometry sampleEnv unsetStop [] origin).2.1.parametersSet = 3 ∧
    (moveGeometry sampleEnv unsetStop [] origin).2.1.parametersSet ≠ unsetStop.parametersSet ∧
    (∀ (s : Stop ℚ) (grid : List GridOp) (offset : Position ℚ), s.myLaneParents = [] →
      moveGeometry sampleEnv s grid offset = (.ok (), s, grid)) := by
  refine ⟨rfl, by decide, by decide, ?_, ?_, ?_, ?_⟩
  · simp [moveGeometry, unsetStop, sampleStop, sampleEnv, orAssign]
  · simp [moveGeometry, unsetStop, sampleStop, sampleEnv, orAssign]
  · simp [moveGeometry, unsetStop, sampleStop, sampleEnv, orAssign]
  · intro s grid offset hl
    simp [moveGeometry, hl]

/-- C6: evaluation of `commitGeometryMoving` on stops on a lane. On `unsetStop`
(neither position defined) the undo list receives a group with a start and an
end change and `parametersSet` goes from 0 to 3. On `startOnlyStop` (only the
start position defined) the group holds an end change as well and
`parametersSet` goes from 1 to 3. -/
theorem commitGeometryMoving_on_stop_without_positions :
    unsetStop.myLaneParents = sampleLane :: [] ∧
    unsetStop.parametersSet &&& sampleEnv.STOP_START_SET = 0 ∧
    unsetStop.parametersSet &&& sampleEnv.STOP_END_SET = 0 ∧
    (commitGeometryMoving sampleEnv unsetStop []).2
      = [UndoOp.p_begin "position of stop",
          UndoOp.p_add .SUMO_ATTR_STARTPOS "0" (some ""),
          UndoOp.p_add .SUMO_ATTR_ENDPOS "0" (some ""),
          UndoOp.p_end] ∧
    (commitGeometryMoving sampleEnv unsetStop []).1.parametersSet = 3 ∧
    startOnlyStop.parametersSet &&& sampleEnv.STOP_END_SET = 0 ∧
    (commitGeometryMoving sampleEnv startOnlyStop []).2
      = [UndoOp.p_begin "position of stop",
          UndoOp.p_add .SUMO_ATTR_STARTPOS "5" (some "5"),
          UndoOp.p_add .SUMO_ATTR_ENDPOS "0" (some ""),
          UndoOp.p_end] ∧
    (commitGeometryMoving sampleEnv startOnlyStop []).1.parametersSet = 3 := by
  refine ⟨rfl, by decide, by decide, ?_, ?_, by decide, ?_, ?_⟩
  · simp [commitGeometryMoving, unsetStop, sampleStop, sampleEnv, orAssign]
  · simp [commitGeometryMoving, unsetStop, sampleStop, sampleEnv, orAssign]
  · simp [commitGeometryMoving, startOnlyStop, sampleStop, sampleEnv, orAssign]
  · simp [commitGeometryMoving, startOnlyStop, sampleStop, sampleEnv, orAssign]

end GNEStop
